import Mathlib

/-!
Verification of the `@anygridtech/frappe-types` repository: a TypeScript
ambient type-declaration package describing the browser-side API of the
Frappe framework.  The repository contains no executable code, only
`.d.ts` declaration modules, so the embedding below is a shallow model of
the declaration surface itself: the abstract syntax of the type
expressions, interface declarations, ambient globals, imports and
top-level declaration forms actually written in the source files, together
with the resolution rules (relative module paths, declaration-set unions)
the claims are about.

Every definition is transcribed from the source files under `src/`:
- `src/frappe.d.ts` (root aggregator, declares the ambient globals),
- `src/client/index.d.ts` (client entry, declares the ambient globals),
- `src/client/frappe/index.d.ts` (client aggregator; the file on disk also
  carries the `model` module, self-labelled `// frappe/model.d.ts`),
- `src/client/frappe/{boot,core,datetime,db,dom,utils}.d.ts` (the boot
  file also carries the `ui` module, self-labelled `// frappe/ui.d.ts`),
- `src/client/frappe/ui/Scanner.d.ts` and the ui leaf modules
  (`Form.d.ts`, `ControlData.d.ts`, `Dialog.d.ts`, `ScriptManager.d.ts`,
  whose directory placement follows their self-labels and the import
  paths of `// frappe/ui.d.ts`),
- `src/doctype/frappe.d.ts/Company.d.ts` and the doctype shape files
  (SerialNo, Item, PurchaseOrder, Workflow, SalesOrder), and
- one further aggregator file of unknown location that repeats the root
  aggregator with sibling-relative import paths (`./frappe-db`, ...).
-/

namespace FrappeTypes

set_option maxRecDepth 16000

/-- Abstract syntax of the TypeScript type expressions that occur in the
declaration files.  `app` is a generic type reference such as
`Record<K, V>`, `Promise<T>`, `Partial<T>`, `JQuery<T>`; `ref` a plain
named reference; `tvar` a type-parameter occurrence; `fn` a function type
with named, possibly-optional parameters; `ctor` a `new (...)` construct
signature; `obj` an object literal type; `callable` an object type whose
members are overloaded call signatures; `indexed` an indexed access type
`T[\x7bkey\x7d]` written `T["key"]`; `keyofT` a `keyof T` operand in a
union.  Type-parameter bounds and defaults are not modelled; a
type-parameter list is kept as a list of names on each member. -/
inductive TsType where
  | str
  | num
  | boolean
  | any
  | unknown
  | void
  | null
  | undefined
  | strLit (s : String)
  | ref (name : String)
  | tvar (name : String)
  | app (name : String) (args : List TsType)
  | arr (elem : TsType)
  | union (ts : List TsType)
  | intersect (ts : List TsType)
  | fn (params : List (String × TsType × Bool)) (ret : TsType)
  | ctor (params : List (String × TsType × Bool)) (ret : TsType)
  | obj (fields : List (String × TsType × Bool))
  | callable (sigs : List (List (String × TsType × Bool) × TsType))
  | indexed (base : TsType) (key : String)
  | thisType
  | keyofT (name : String)
deriving Repr

/-- Whether a TypeScript interface member is written in property form
(`name: T` / `name: (...) => R`) or in method form (`name(...): R`). -/
inductive MemberForm where
  | property
  | method
deriving Repr, DecidableEq

/-- One member of an interface or object type: its name, declaration
form, type-parameter names (for generic members), declared type (for a
method, a `TsType.fn`), and whether it is marked optional with `?`. -/
structure Member where
  name : String
  form : MemberForm
  tparams : List String := []
  type : TsType
  optional : Bool := false
deriving Repr

/-- An interface declaration: its name, type-parameter names, `extends`
clause, members in source order, and whether it ends with a string index
signature (`[key: string]: any`). -/
structure InterfaceDecl where
  name : String
  tparams : List String := []
  extendsList : List String := []
  members : List Member
  hasIndexSig : Bool := false
deriving Repr

/-- An ambient global declared inside a `declare global` block: either an
ambient `const name: T` or an ambient `function name(...): R`. -/
inductive GlobalDecl where
  | const (name : String) (type : TsType)
  | func (name : String) (params : List (String × TsType × Bool)) (ret : TsType)
deriving Repr

/-- The name a `GlobalDecl` introduces. -/
def GlobalDecl.gname : GlobalDecl → String
  | .const n _ => n
  | .func n _ _ => n

/-- A top-level declaration of a source file, by kind.  The last two
constructors can represent runtime content (a value-creating declaration
such as `const x = ...` or a class with a body, and a bare executable
statement); the transcription of this repository never needs them, which
is exactly what claim C8 asserts. -/
inductive Decl where
  | importDecl (relPath : String) (bindings : List String)
  | interfaceDecl (exported : Bool) (name : String)
  | typeAliasDecl (exported : Bool) (name : String)
  | declareGlobal (globals : List GlobalDecl)
  | exportEmpty
  | runtimeValueDecl (name : String)
  | runtimeStatement
deriving Repr

/-- A declaration is type-level or ambient: an import, an interface, a
type alias, an ambient `declare global` block, or the module-marking
`export \x7b \x7d` — as opposed to a runtime value creation or an
executable statement. -/
def Decl.isTypeLevelOrAmbient : Decl → Bool
  | .importDecl _ _ => true
  | .interfaceDecl _ _ => true
  | .typeAliasDecl _ _ => true
  | .declareGlobal _ => true
  | .exportEmpty => true
  | .runtimeValueDecl _ => false
  | .runtimeStatement => false

/-- A source file of the repository: its module path (the repository path
of the file without the `.d.ts` extension; `none` when the dataset does
not record the file name), and its top-level declarations in source
order. -/
structure SourceFile where
  path : Option String
  decls : List Decl
deriving Repr

/-- The ambient globals a file declares (the concatenation of its
`declare global` blocks). -/
def SourceFile.globals (f : SourceFile) : List GlobalDecl :=
  f.decls.flatMap fun d =>
    match d with
    | .declareGlobal gs => gs
    | _ => []

/-- The names a file exports (its exported interfaces and type aliases). -/
def SourceFile.exports (f : SourceFile) : List String :=
  f.decls.filterMap fun d =>
    match d with
    | .interfaceDecl true n => some n
    | .typeAliasDecl true n => some n
    | _ => none

/-- The import declarations of a file: pairs of a relative module path
and the list of imported bindings. -/
def SourceFile.importList (f : SourceFile) : List (String × List String) :=
  f.decls.filterMap fun d =>
    match d with
    | .importDecl p bs => some (p, bs)
    | _ => none

/-- Deduplicate a list of ambient globals by declared name, keeping the
first declaration of each name.  This is how TypeScript merges repeated
ambient declarations of the same global across declaration files: the
name set is a set, so re-declaring adds nothing. -/
def dedupByName (gs : List GlobalDecl) : List GlobalDecl :=
  (gs.foldl
    (fun acc g => if acc.any (fun h => h.gname == g.gname) then acc else acc ++ [g])
    [])

/-- Split a character list on a separator character. -/
def splitCharsOn (sep : Char) : List Char → List (List Char)
  | [] => [[]]
  | c :: t =>
    let r := splitCharsOn sep t
    if c == sep then [] :: r
    else
      match r with
      | [] => [[c]]
      | h :: t2 => (c :: h) :: t2

/-- Split a path into its `/`-separated components. -/
def splitSlash (s : String) : List String :=
  (splitCharsOn ('/') s.toList).map fun cs => String.mk cs

/-- Join path components with `/`. -/
def joinSlash : List String → String
  | [] => ""
  | [x] => x
  | x :: xs => x ++ ("/") ++ joinSlash xs

/-- Resolve a relative import path against a directory, interpreting
`.` and `..` components. -/
def resolveRel (dir : String) (rel : String) : String :=
  let comps := splitSlash dir ++ splitSlash rel
  let norm := comps.foldl
    (fun acc c =>
      if c == "." || c == "" then acc
      else if c == ".." then acc.dropLast
      else acc ++ [c]) []
  joinSlash norm

/-- Whether a module sits at a resolved import target: its path is the
target itself, or the target names a directory and the module is that
directory's `index` file (the two resolutions TypeScript tries for a
relative extension-less import). -/
def SourceFile.resolvesTo (m : SourceFile) (target : String) : Bool :=
  m.path == some target || m.path == some (target ++ ("/index"))

/-- Whether a module could possibly satisfy an import of binding `b` at
resolved target `target`: it must be able to sit at the target (its path
is the target, the target's `index`, or is unknown) and it must export
`b`.  Files of unknown location are conservatively allowed to sit
anywhere, so a `false` over all files is a location-independent fact. -/
def SourceFile.mayProvideAt (m : SourceFile) (target : String) (b : String) : Bool :=
  (m.path.isNone || m.resolvesTo target) && (m.exports.contains b)

/-- The names of an interface's members, in source order. -/
def InterfaceDecl.memberNames (i : InterfaceDecl) : List String :=
  i.members.map Member.name

/-- The member of interface `i` named `n` (the first one, if any). -/
def getMember (i : InterfaceDecl) (n : String) : Option Member :=
  i.members.find? fun m => m.name == n

/-- The names that occur more than once in a list, each listed once, in
order of first occurrence. -/
def dupOf (l : List String) : List String :=
  (l.foldl (fun acc n => if acc.contains n then acc else acc ++ [n]) []).filter
    fun n => 2 ≤ l.count n

/-- The member names an interface declares more than once. -/
def InterfaceDecl.dupMemberNames (i : InterfaceDecl) : List String :=
  dupOf i.memberNames

/-- The parameter names of a member whose type is a function type. -/
def Member.paramNames (m : Member) : List String :=
  match m.type with
  | .fn ps _ => ps.map fun p => p.1
  | _ => []

/-- The field names of an object literal type, in source order. -/
def objFieldNames : TsType → List String
  | .obj fs => fs.map fun f => f.1
  | _ => []

/-- Whether a type expression is a function type. -/
def TsType.isFn : TsType → Bool
  | .fn _ _ => true
  | _ => false

/-! ### The source files of the repository, at top-level declaration granularity

Each `SourceFile` below transcribes one declaration module: its module
path (repository file path without the `.d.ts` extension) and the kinds
and names of its top-level declarations, in source order.  Interface
member lists are transcribed separately further down for the interfaces
the claims are about. -/

/-- The three ambient globals declared by the `declare global` blocks of
`src/frappe.d.ts`, `src/client/index.d.ts` and the unnamed aggregator
file: `const frappe: Frappe`, `const cur_frm: FrappeForm`, and
`function __(text: string, replacements?: Record<string, string | number>): string`.
All three blocks are verbatim identical. -/
def fixedGlobals : List GlobalDecl :=
  [ .const ("frappe") (.ref ("Frappe")),
    .const ("cur_frm") (.ref ("FrappeForm")),
    .func ("__")
      [("text", .str, false),
       ("replacements", .app ("Record") [.str, .union [.str, .num]], true)]
      (.str) ]

/-- `src/frappe.d.ts`: the root aggregator.  Imports the leaf shapes from
`./frappe/frappe-db`, ..., declares the `Frappe` interface and the three
ambient globals. -/
def frappe_root_file : SourceFile where
  path := some ("src/frappe")
  decls :=
    [ .importDecl ("./frappe/frappe-db") ["db"],
      .importDecl ("./frappe/frappe-ui") ["ui"],
      .importDecl ("./frappe/frappe-utils") ["utils"],
      .importDecl ("./frappe/frappe-model") ["model"],
      .importDecl ("./frappe/frappe-boot") ["boot"],
      .importDecl ("./frappe/frappe-datetime") ["datetime"],
      .importDecl ("./frappe/frappe-core") ["FrappeExtendedFunctions", "FrappeForm"],
      .importDecl ("./frappe/frappe-dom") ["dom"],
      .interfaceDecl true ("Frappe"),
      .declareGlobal fixedGlobals,
      .exportEmpty ]

/-- The aggregator file of unknown location (dataset name
`src/unnamed/part_000`): verbatim the root aggregator except that
its import paths are sibling-relative (`./frappe-db`, ...). -/
def unnamed_aggregator_file : SourceFile where
  path := none
  decls :=
    [ .importDecl ("./frappe-db") ["db"],
      .importDecl ("./frappe-ui") ["ui"],
      .importDecl ("./frappe-utils") ["utils"],
      .importDecl ("./frappe-model") ["model"],
      .importDecl ("./frappe-boot") ["boot"],
      .importDecl ("./frappe-datetime") ["datetime"],
      .importDecl ("./frappe-core") ["FrappeExtendedFunctions", "FrappeForm"],
      .importDecl ("./frappe-dom") ["dom"],
      .interfaceDecl true ("Frappe"),
      .declareGlobal fixedGlobals,
      .exportEmpty ]

/-- `src/client/index.d.ts`: the client entry point; imports the composed
`Frappe` shape and declares the three ambient globals. -/
def client_index_file : SourceFile where
  path := some ("src/client/index")
  decls :=
    [ .importDecl ("./frappe") ["Frappe"],
      .importDecl ("./frappe/core") ["FrappeForm"],
      .declareGlobal fixedGlobals,
      .exportEmpty ]

/-- `src/client/frappe/index.d.ts` (self-labelled `// frappe/index.d.ts`):
the client aggregator; imports each leaf module from a sibling path and
declares the composite `Frappe` interface. -/
def client_frappe_index_file : SourceFile where
  path := some ("src/client/frappe/index")
  decls :=
    [ .importDecl ("./db") ["db"],
      .importDecl ("./ui") ["ui"],
      .importDecl ("./utils") ["utils"],
      .importDecl ("./model") ["model"],
      .importDecl ("./boot") ["boot"],
      .importDecl ("./datetime") ["datetime"],
      .importDecl ("./core") ["FrappeExtendedFunctions", "FrappeForm"],
      .importDecl ("./dom") ["dom"],
      .interfaceDecl true ("Frappe"),
      .exportEmpty ]

/-- The module self-labelled `// frappe/model.d.ts` (carried in the same
dataset file as the client aggregator, which imports it as `./model`, so
it sits at `src/client/frappe/model.d.ts`). -/
def model_file : SourceFile where
  path := some ("src/client/frappe/model")
  decls :=
    [ .importDecl ("./core") ["FrappeDoc"],
      .interfaceDecl true ("model"),
      .typeAliasDecl true ("UserShared") ]

/-- `src/client/frappe/core.d.ts` (self-labelled `// frappe/core.d.ts`).
Note that `FrappeExtendedFunctions` is declared WITHOUT `export`, and
that `FrappeGrid` is declared twice (top-level declaration merging). -/
def core_file : SourceFile where
  path := some ("src/client/frappe/core")
  decls :=
    [ .importDecl ("./ui/Dialog") ["DialogField", "DialogInstance"],
      .importDecl ("./ui/ScriptManager") ["ScriptManagerInstance"],
      .interfaceDecl true ("FrappeDoc"),
      .interfaceDecl false ("QueryOptions"),
      .typeAliasDecl false ("QueryFunction"),
      .interfaceDecl true ("FrappeForm"),
      .interfaceDecl true ("FrappeForm_WorkflowAction_Extension"),
      .typeAliasDecl false ("FieldDict"),
      .typeAliasDecl false ("FieldsDict"),
      .interfaceDecl true ("DocField"),
      .interfaceDecl false ("DocMeta"),
      .interfaceDecl false ("FrappeExtendedFunctions"),
      .interfaceDecl false ("CurGrid"),
      .interfaceDecl false ("FrappeUIForm"),
      .interfaceDecl false ("FrappeGrid"),
      .interfaceDecl false ("FrappeGrid"),
      .interfaceDecl false ("GridForm"),
      .interfaceDecl false ("TabVersion"),
      .interfaceDecl false ("VersionData"),
      .typeAliasDecl true ("core") ]

/-- `src/client/frappe/db.d.ts` (self-labelled `// frappe/db.d.ts`). -/
def db_file : SourceFile where
  path := some ("src/client/frappe/db")
  decls :=
    [ .importDecl ("./core") ["FrappeForm"],
      .interfaceDecl true ("db"),
      .typeAliasDecl false ("Operator"),
      .typeAliasDecl false ("FilterCondition"),
      .typeAliasDecl false ("ComplexFilter"),
      .interfaceDecl false ("GetListOptions") ]

/-- `src/client/frappe/boot.d.ts` (self-labelled `// frappe/boot.d.ts`). -/
def boot_file : SourceFile where
  path := some ("src/client/frappe/boot")
  decls := [ .interfaceDecl true ("boot") ]

/-- The module self-labelled `// frappe/ui.d.ts` (carried in the same
dataset file as the boot module; the client aggregator imports it as
`./ui`, so it sits at `src/client/frappe/ui.d.ts`). -/
def ui_file : SourceFile where
  path := some ("src/client/frappe/ui")
  decls :=
    [ .importDecl ("./ui/Dialog") ["Dialog"],
      .importDecl ("./ui/Form") ["Form"],
      .importDecl ("./ui/Scanner") ["Scanner", "ScannerData", "ScannerOptions"],
      .importDecl ("./ui/ScriptManager") ["ScriptManager"],
      .interfaceDecl true ("ui") ]

/-- `src/client/frappe/utils.d.ts` (self-labelled `// frappe/utils.d.ts`). -/
def utils_file : SourceFile where
  path := some ("src/client/frappe/utils")
  decls := [ .interfaceDecl true ("utils") ]

/-- `src/client/frappe/datetime.d.ts` (self-labelled
`// frappe/datetime.d.ts`). -/
def datetime_file : SourceFile where
  path := some ("src/client/frappe/datetime")
  decls := [ .interfaceDecl true ("datetime") ]

/-- `src/client/frappe/dom.d.ts` (self-labelled `// frappe/dom.d.ts`). -/
def dom_file : SourceFile where
  path := some ("src/client/frappe/dom")
  decls := [ .interfaceDecl true ("dom") ]

/-- `src/client/frappe/ui/Scanner.d.ts` (self-labelled
`// frappe/ui/Scanner.d.ts`). -/
def scanner_file : SourceFile where
  path := some ("src/client/frappe/ui/Scanner")
  decls :=
    [ .interfaceDecl true ("Scanner"),
      .interfaceDecl true ("ScannerInstance"),
      .interfaceDecl true ("ScannerData"),
      .interfaceDecl false ("ScannerOptions") ]

/-- The module self-labelled `// frappe/ui/Form.d.ts` (the ui module
names it by the path `./ui/Form`, so it sits at
`src/client/frappe/ui/Form.d.ts`). -/
def form_file : SourceFile where
  path := some ("src/client/frappe/ui/Form")
  decls :=
    [ .importDecl ("../core") ["FrappeForm"],
      .importDecl ("./ControlData") ["ControlData"],
      .interfaceDecl true ("Form"),
      .interfaceDecl true ("FrappeFormHandlers") ]

/-- The module self-labelled `// frappe/ui/ControlData.d.ts`. -/
def controldata_file : SourceFile where
  path := some ("src/client/frappe/ui/ControlData")
  decls :=
    [ .interfaceDecl true ("ControlDataInstance"),
      .interfaceDecl true ("ControlData"),
      .interfaceDecl true ("ControlOptions") ]

/-- The module self-labelled `// frappe/ui/Dialog.d.ts`. -/
def dialog_file : SourceFile where
  path := some ("src/client/frappe/ui/Dialog")
  decls :=
    [ .importDecl ("../core") ["DocField"],
      .interfaceDecl true ("Dialog"),
      .interfaceDecl true ("DialogConfiguration"),
      .interfaceDecl true ("DialogInstance"),
      .interfaceDecl true ("DialogField"),
      .interfaceDecl true ("EnhancedDialog") ]

/-- The module self-labelled `// frappe/ui/ScriptManager.d.ts`. -/
def scriptmanager_file : SourceFile where
  path := some ("src/client/frappe/ui/ScriptManager")
  decls :=
    [ .interfaceDecl true ("ScriptManager"),
      .interfaceDecl true ("ScriptManagerConfiguration"),
      .interfaceDecl true ("ScriptManagerInstance") ]

/-- `src/doctype/frappe.d.ts/Company.d.ts` (the directory is literally
named `frappe.d.ts`). -/
def company_file : SourceFile where
  path := some ("src/doctype/frappe.d.ts/Company")
  decls :=
    [ .importDecl ("../../client/frappe/core") ["FrappeDoc"],
      .interfaceDecl true ("Company") ]

/-- The SalesOrder doctype shape file (location unknown; its import path
places it two directories below the repository root). -/
def salesorder_file : SourceFile where
  path := none
  decls :=
    [ .importDecl ("../../client/frappe/core") ["FrappeDoc"],
      .interfaceDecl true ("SalesOrder"),
      .interfaceDecl true ("SalesOrderItem") ]

/-- The SerialNo doctype shape file (location unknown).  Note the
interface is not exported. -/
def serialno_file : SourceFile where
  path := none
  decls :=
    [ .importDecl ("../../client/frappe/core") ["FrappeDoc"],
      .interfaceDecl false ("SerialNo") ]

/-- The Item doctype shape file (location unknown; not exported). -/
def item_file : SourceFile where
  path := none
  decls :=
    [ .importDecl ("../../client/frappe/core") ["FrappeDoc"],
      .interfaceDecl false ("Item") ]

/-- The PurchaseOrder doctype shape file (location unknown). -/
def purchaseorder_file : SourceFile where
  path := none
  decls :=
    [ .importDecl ("../../client/frappe/core") ["FrappeDoc"],
      .interfaceDecl true ("PurchaseOrder"),
      .interfaceDecl true ("PurchaseOrderItem") ]

/-- The Workflow doctype shape file (location unknown; none of its three
interfaces is exported). -/
def workflow_file : SourceFile where
  path := none
  decls :=
    [ .importDecl ("../../client/frappe/core") ["FrappeDoc"],
      .interfaceDecl false ("Workflow"),
      .interfaceDecl false ("WorkflowState"),
      .interfaceDecl false ("WorkflowTransition") ]

/-- All TypeScript declaration modules of the repository.  (The
repository also ships README, publishing and versioning markdown
documents, which contain no declarations.) -/
def tsSourceFiles : List SourceFile :=
  [ frappe_root_file,
    client_index_file,
    client_frappe_index_file,
    model_file,
    core_file,
    db_file,
    boot_file,
    ui_file,
    utils_file,
    datetime_file,
    dom_file,
    scanner_file,
    form_file,
    controldata_file,
    dialog_file,
    scriptmanager_file,
    company_file,
    salesorder_file,
    serialno_file,
    item_file,
    purchaseorder_file,
    workflow_file,
    unnamed_aggregator_file ]

/-! ### Interface declarations, at member granularity

Transcribed member-by-member from the source, in source order, for the
interfaces the claims are about. -/

/-- Shorthand for `Record<string, any>`. -/
def recSA : TsType := .app ("Record") [.str, .any]

/-- `FrappeDoc` (`src/client/frappe/core.d.ts`): the generic document
record shape.  Ends with the index signature `[key: string]: any`. -/
def FrappeDoc : InterfaceDecl where
  name := "FrappeDoc"
  members :=
    [ { name := "workflow_state", form := .property, type := .str },
      { name := "name", form := .property, type := .str },
      { name := "doctype", form := .property, type := .str },
      { name := "owner", form := .property, type := .str },
      { name := "modified_by", form := .property, type := .str, optional := true },
      { name := "creation", form := .property, type := .str, optional := true },
      { name := "modified", form := .property, type := .str, optional := true },
      { name := "idx", form := .property, type := .num, optional := true },
      { name := "parent", form := .property, type := .str, optional := true },
      { name := "parentfield", form := .property, type := .str, optional := true },
      { name := "parenttype", form := .property, type := .str, optional := true },
      { name := "docstatus", form := .property, type := .num },
      { name := "__islocal", form := .property, type := .boolean, optional := true },
      { name := "__unsaved", form := .property, type := .boolean, optional := true },
      { name := "state_fieldname", form := .property, type := .str },
      { name := "__workflow_docs", form := .property, type := .arr (.ref ("FrappeDoc")) } ]
  hasIndexSig := true

/-- The first two lines of the doc comment on `FrappeDoc.owner` in
`src/client/frappe/core.d.ts` (the member itself is declared
`owner: string`, without a `?`). -/
def FrappeDoc_owner_comment : String :=
  "The user who created the document. Optional; may not be present in some cases."

/-- `DocMeta` (`src/client/frappe/core.d.ts`): metadata for a DocType.
Ends with the index signature `[key: string]: any`. -/
def DocMeta : InterfaceDecl where
  name := "DocMeta"
  members :=
    [ { name := "name", form := .property, type := .str },
      { name := "module", form := .property, type := .str },
      { name := "fields", form := .property, type := .arr (.ref ("DocField")) },
      { name := "is_submittable", form := .property, type := .boolean },
      { name := "issingle", form := .property, type := .boolean },
      { name := "istable", form := .property, type := .boolean },
      { name := "allow_import", form := .property, type := .boolean },
      { name := "allow_rename", form := .property, type := .boolean },
      { name := "track_changes", form := .property, type := .boolean },
      { name := "quick_entry", form := .property, type := .boolean },
      { name := "hide_toolbar", form := .property, type := .boolean },
      { name := "beta", form := .property, type := .boolean },
      { name := "autoname", form := .property, type := .str },
      { name := "sort_field", form := .property, type := .str },
      { name := "sort_order", form := .property, type := .str },
      { name := "default_print_format", form := .property, type := .str },
      { name := "fields_map", form := .property,
        type := .app ("Record") [.str, .ref ("DocField")], optional := true } ]
  hasIndexSig := true

/-- `SerialNo` (doctype shape file): extends `FrappeDoc`. -/
def SerialNo : InterfaceDecl where
  name := "SerialNo"
  extendsList := ["FrappeDoc"]
  members :=
    [ { name := "item_code", form := .property, type := .str },
      { name := "serial_no", form := .property, type := .str },
      { name := "company", form := .property, type := .str },
      { name := "item_group", form := .property, type := .str, optional := true },
      { name := "status", form := .property,
        type := .union [.strLit ("Active"), .strLit ("Inactive"),
                        .strLit ("Delivered"), .strLit ("Expired")] },
      { name := "warehouse", form := .property, type := .union [.str, .null] },
      { name := "batch_no", form := .property, type := .union [.str, .null] },
      { name := "item_name", form := .property, type := .union [.str, .undefined] },
      { name := "description", form := .property, type := .union [.str, .undefined] },
      { name := "workflow_history_html", form := .property, type := .str,
        optional := true } ]

/-- `Item` (doctype shape file): extends `FrappeDoc`. -/
def Item : InterfaceDecl where
  name := "Item"
  extendsList := ["FrappeDoc"]
  members :=
    [ { name := "item_code", form := .property, type := .str },
      { name := "item_name", form := .property, type := .str },
      { name := "item_group", form := .property, type := .str },
      { name := "description", form := .property, type := .str, optional := true },
      { name := "stock_uom", form := .property, type := .str },
      { name := "is_stock_item", form := .property, type := .boolean },
      { name := "is_purchase_item", form := .property, type := .boolean },
      { name := "is_sales_item", form := .property, type := .boolean },
      { name := "valuation_rate", form := .property, type := .num, optional := true },
      { name := "default_warehouse", form := .property, type := .str, optional := true },
      { name := "custom_equipament_type", form := .property, type := .str,
        optional := true } ]

/-- `PurchaseOrder` (doctype shape file): extends `FrappeDoc`. -/
def PurchaseOrder : InterfaceDecl where
  name := "PurchaseOrder"
  extendsList := ["FrappeDoc"]
  members :=
    [ { name := "supplier", form := .property, type := .str },
      { name := "transaction_date", form := .property, type := .str },
      { name := "items", form := .property, type := .arr (.ref ("PurchaseOrderItem")) },
      { name := "status", form := .property, type := .str },
      { name := "company", form := .property, type := .str } ]

/-- `PurchaseOrderItem` (doctype shape file): extends `FrappeDoc`. -/
def PurchaseOrderItem : InterfaceDecl where
  name := "PurchaseOrderItem"
  extendsList := ["FrappeDoc"]
  members :=
    [ { name := "item_code", form := .property, type := .str },
      { name := "qty", form := .property, type := .num },
      { name := "rate", form := .property, type := .num },
      { name := "amount", form := .property, type := .num },
      { name := "uom", form := .property, type := .str },
      { name := "warehouse", form := .property, type := .str } ]

/-- `Workflow` (doctype shape file): extends `FrappeDoc`. -/
def Workflow : InterfaceDecl where
  name := "Workflow"
  extendsList := ["FrappeDoc"]
  members :=
    [ { name := "next_step", form := .property, type := .str },
      { name := "creation", form := .property, type := .str },
      { name := "docstatus", form := .property, type := .num },
      { name := "doctype", form := .property, type := .str },
      { name := "document_type", form := .property, type := .str },
      { name := "idx", form := .property, type := .num },
      { name := "is_active", form := .property, type := .num },
      { name := "modified", form := .property, type := .str },
      { name := "modified_by", form := .property, type := .str },
      { name := "name", form := .property, type := .str },
      { name := "override_status", form := .property, type := .num },
      { name := "owner", form := .property, type := .str },
      { name := "send_email_alert", form := .property, type := .num },
      { name := "states", form := .property, type := .arr (.ref ("WorkflowState")) },
      { name := "transitions", form := .property,
        type := .arr (.ref ("WorkflowTransition")) },
      { name := "workflow_data", form := .property, type := .str },
      { name := "workflow_name", form := .property, type := .str },
      { name := "workflow_state_field", form := .property, type := .str } ]

/-- `WorkflowState` (doctype shape file): extends `FrappeDoc`. -/
def WorkflowState : InterfaceDecl where
  name := "WorkflowState"
  extendsList := ["FrappeDoc"]
  members :=
    [ { name := "name", form := .property, type := .str },
      { name := "owner", form := .property, type := .str },
      { name := "creation", form := .property, type := .str },
      { name := "doc_status", form := .property, type := .str },
      { name := "docstatus", form := .property, type := .num },
      { name := "doctype", form := .property, type := .str },
      { name := "idx", form := .property, type := .num },
      { name := "is_optional_state", form := .property, type := .num },
      { name := "modified", form := .property, type := .str },
      { name := "modified_by", form := .property, type := .str },
      { name := "parent", form := .property, type := .str },
      { name := "parentfield", form := .property, type := .str },
      { name := "parenttype", form := .property, type := .str },
      { name := "state", form := .property, type := .str },
      { name := "allow_edit", form := .property, type := .str, optional := true },
      { name := "avoid_status_override", form := .property, type := .num,
        optional := true },
      { name := "workflow_builder_id", form := .property, type := .str,
        optional := true } ]

/-- `WorkflowTransition` (doctype shape file): extends `FrappeDoc`. -/
def WorkflowTransition : InterfaceDecl where
  name := "WorkflowTransition"
  extendsList := ["FrappeDoc"]
  members :=
    [ { name := "name", form := .property, type := .str },
      { name := "owner", form := .property, type := .str },
      { name := "creation", form := .property, type := .str },
      { name := "docstatus", form := .property, type := .num },
      { name := "doctype", form := .property, type := .str },
      { name := "idx", form := .property, type := .num },
      { name := "modified", form := .property, type := .str },
      { name := "modified_by", form := .property, type := .str },
      { name := "parent", form := .property, type := .str },
      { name := "parentfield", form := .property, type := .str },
      { name := "parenttype", form := .property, type := .str },
      { name := "state", form := .property, type := .str },
      { name := "next_state", form := .property, type := .str },
      { name := "action", form := .property, type := .str },
      { name := "allow_self_approval", form := .property, type := .num },
      { name := "allowed", form := .property, type := .str } ]

/-- `Company` (`src/doctype/frappe.d.ts/Company.d.ts`): extends
`FrappeDoc`. -/
def Company : InterfaceDecl where
  name := "Company"
  extendsList := ["FrappeDoc"]
  members :=
    [ { name := "name", form := .property, type := .str },
      { name := "company_name", form := .property, type := .str },
      { name := "abbr", form := .property, type := .str },
      { name := "default_currency", form := .property, type := .str },
      { name := "country", form := .property, type := .str },
      { name := "tax_id", form := .property, type := .str },
      { name := "is_group", form := .property, type := .boolean },
      { name := "custom_inscricao_estadual", form := .property,
        type := .union [.str, .undefined] },
      { name := "website", form := .property, type := .union [.str, .undefined] },
      { name := "phone", form := .property, type := .union [.str, .undefined] },
      { name := "email", form := .property, type := .union [.str, .undefined] } ]

/-- `SalesOrder` (doctype shape file): extends `FrappeDoc`. -/
def SalesOrder : InterfaceDecl where
  name := "SalesOrder"
  extendsList := ["FrappeDoc"]
  members :=
    [ { name := "customer", form := .property, type := .str },
      { name := "transaction_date", form := .property, type := .str },
      { name := "delivery_date", form := .property, type := .str },
      { name := "items", form := .property, type := .arr (.ref ("SalesOrderItem")) },
      { name := "status", form := .property, type := .str },
      { name := "company", form := .property, type := .str } ]

/-- `SalesOrderItem` (doctype shape file): extends `FrappeDoc`. -/
def SalesOrderItem : InterfaceDecl where
  name := "SalesOrderItem"
  extendsList := ["FrappeDoc"]
  members :=
    [ { name := "item_code", form := .property, type := .str },
      { name := "qty", form := .property, type := .num },
      { name := "rate", form := .property, type := .num },
      { name := "amount", form := .property, type := .num },
      { name := "uom", form := .property, type := .str },
      { name := "warehouse", form := .property, type := .str } ]

/-- The business-document shapes of the repository: every interface that
extends `FrappeDoc`. -/
def businessDocInterfaces : List InterfaceDecl :=
  [ SerialNo, Item, PurchaseOrder, PurchaseOrderItem,
    Workflow, WorkflowState, WorkflowTransition,
    Company, SalesOrder, SalesOrderItem ]

/-- The member names an interface requires (declares without `?`), own
members first, then the required members inherited from `FrappeDoc` when
the interface extends it.  (Every `extends` clause in this repository
names only `FrappeDoc`.) -/
def requiredMemberNames (i : InterfaceDecl) : List String :=
  ((i.members.filter fun m => !m.optional).map Member.name) ++
    (if i.extendsList.contains ("FrappeDoc") then
      (FrappeDoc.members.filter fun m => !m.optional).map Member.name
    else [])

/-! ### Member-name projections of the remaining module interfaces

For the module interfaces whose member types no claim inspects, only the
member-name list (in source order) is transcribed. -/

/-- Member names of `interface ui` (`// frappe/ui.d.ts`). -/
def ui_memberNames : List String :=
  ["form", "Dialog", "Scanner", "ScriptManager"]

/-- Member names of `interface utils` (`src/client/frappe/utils.d.ts`). -/
def utils_memberNames : List String :=
  ["nowdate", "today", "get_random", "icon", "eval"]

/-- Member names of `interface boot` (`src/client/frappe/boot.d.ts`). -/
def boot_memberNames : List String :=
  [ "active_domains", "additional_filters_config", "all_accounts",
    "all_domains", "allowed_pages", "allowed_workspaces", "app_logo_url",
    "apps_data", "assets_json", "calendars", "custom_css", "lang",
    "lang_dict", "metadata_version", "nested_set_doctypes",
    "setup_complete", "time_zone", "user", "module_app", "sysdefaults",
    "max_file_size", "subscription_conf", "versions" ]

/-- Member names of `interface datetime`
(`src/client/frappe/datetime.d.ts`). -/
def datetime_memberNames : List String :=
  [ "add_days", "add_months", "comment_when", "convert_to_system_tz",
    "convert_to_user_tz", "get_datetime_as_string", "get_day_diff",
    "get_diff", "get_first_day_of_the_week_index", "get_hour_diff",
    "get_minute_diff", "get_time", "get_today", "get_user_date_fmt",
    "get_user_fmt", "get_user_time_fmt", "global_date_format",
    "is_system_time_zone", "is_timezone_same", "moment_to_date_obj",
    "month_start", "month_end", "now_date", "now_datetime", "now_time",
    "obj_to_str", "obj_to_user", "prettyDate", "quarter_start",
    "quarter_end", "str_to_obj", "str_to_user", "system_datetime",
    "user_to_obj", "user_to_str", "validate" ]

/-- Member names of `interface dom` (`src/client/frappe/dom.d.ts`). -/
def dom_memberNames : List String :=
  [ "activate", "add", "by_id", "css", "eval", "file_to_base64",
    "freeze", "get_unique_id", "handle_broken_images",
    "is_element_in_modal", "is_element_in_viewport", "is_touchscreen",
    "pixel_to_inches", "remove_script_and_style", "restore_selection",
    "save_selection", "scroll_to_bottom", "scroll_to_section",
    "set_style", "set_unique_id", "unfreeze" ]

/-- `FrappeExtendedFunctions` (`src/client/frappe/core.d.ts`): the
direct members of the `frappe` namespace, which the `Frappe` interface
extends.  Note `set_route` is declared twice: once in method form and
once in property form. -/
def FrappeExtendedFunctions : InterfaceDecl where
  name := "FrappeExtendedFunctions"
  members :=
    [ { name := "provide", form := .method,
        type := .fn [("namespace", .str, false)] (.void) },
      { name := "get_doc", form := .property, tparams := ["T"],
        type := .fn [("doctype", .str, false),
                     ("name", .union [.str, recSA], true)]
                    (.union [.tvar ("T"), .null]) },
      { name := "get_meta", form := .property,
        type := .fn [("doctype", .str, false)]
                    (.union [.ref ("DocMeta"), .undefined]) },
      { name := "confirm", form := .property,
        type := .fn [("message", .str, false),
                     ("yesAction", .fn [] (.void), false),
                     ("noAction", .fn [] (.void), true)]
                    (.ref ("DialogInstance")) },
      { name := "prompt", form := .property,
        type := .fn [("fields", .union [.str, .arr (.ref ("DialogField"))], false),
                     ("callback", .fn [("values", recSA, false)] (.void), false),
                     ("options",
                      .obj [("title", .str, true),
                            ("primary_action_label", .str, true)], true)]
                    (.void) },
      { name := "msgprint", form := .property,
        type := .callable
          [ ([("message", .str, false), ("title", .str, true),
              ("is_minimizable", .boolean, true)], .void),
            ([("options",
               .obj [("title", .str, true), ("indicator", .str, true),
                     ("message", .str, false)], false)], .void) ] },
      { name := "validated", form := .property, type := .boolean },
      { name := "show_alert", form := .property,
        type := .fn
          [ ("message",
             .union [.str,
                     .obj [("message", .str, false), ("subtitle", .str, true),
                           ("body", .str, true),
                           ("indicator",
                            .union [.strLit ("orange"), .strLit ("yellow"),
                                    .strLit ("blue"), .strLit ("green"),
                                    .strLit ("red"), .str], true)]], false),
            ("seconds", .num, true),
            ("actions", .app ("Record") [.str, .fn [] (.void)], true) ]
          (.app ("JQuery") [.ref ("HTMLElement")]) },
      { name := "new_doc", form := .method, tparams := ["T"],
        type := .fn [("doctype", .str, false),
                     ("options", .app ("Partial") [.tvar ("T")], true),
                     ("init_callback",
                      .fn [("doc", .tvar ("T"), false)] (.void), true)]
                    (.void) },
      { name := "set_route", form := .method,
        type := .fn [("route", .union [.str, .arr (.str)], false)] (.void) },
      { name := "call", form := .method, tparams := ["T"],
        type := .fn
          [ ("options",
             .obj [("method", .str, false), ("args", recSA, true),
                   ("freeze", .boolean, true), ("quiet", .boolean, true),
                   ("callback",
                    .fn [("response", .obj [("message", .tvar ("T"), false)],
                          false)] (.void), true)], false) ]
          (.app ("Promise") [.tvar ("T")]) },
      { name := "throw", form := .property,
        type := .callable
          [ ([("message", .str, false), ("title", .str, true),
              ("is_minimizable", .boolean, true)], .void),
            ([("options",
               .obj [("title", .str, true), ("indicator", .str, true),
                     ("message", .str, false)], false)], .void) ] },
      { name := "get_route", form := .method,
        type := .fn [] (.arr (.str)) },
      { name := "get_route_str", form := .method,
        type := .fn [] (.str) },
      { name := "session", form := .property,
        type := .obj [("logged_in_user", .str, false), ("user", .str, false),
                      ("user_email", .str, false),
                      ("user_fullname", .str, false)] },
      { name := "open_in_new_tab", form := .property, type := .boolean },
      { name := "set_route", form := .property,
        type := .fn [("route", .union [.str, .arr (.str)], false)] (.void) },
      { name := "xcall", form := .property,
        type := .fn [("method", .str, false), ("params", recSA, true)]
                    (.app ("Promise") [.any]) } ]

/-- `interface Frappe` as declared by the root aggregator
`src/frappe.d.ts` (and identically by the unnamed aggregator file):
extends `FrappeExtendedFunctions` and bundles the module shapes.  This
variant has a `frappe: any` member. -/
def Frappe_root : InterfaceDecl where
  name := "Frappe"
  extendsList := ["FrappeExtendedFunctions"]
  members :=
    [ { name := "user", form := .property, type := .any },
      { name := "defaults", form := .property, type := .any },
      { name := "frappe", form := .property, type := .any },
      { name := "ui", form := .property, type := .ref ("ui") },
      { name := "db", form := .property, type := .ref ("db") },
      { name := "utils", form := .property, type := .ref ("utils") },
      { name := "model", form := .property, type := .ref ("model") },
      { name := "boot", form := .property, type := .ref ("boot") },
      { name := "dom", form := .property, type := .ref ("dom") },
      { name := "datetime", form := .property, type := .ref ("datetime") } ]

/-- `interface Frappe` as declared by the client aggregator
`src/client/frappe/index.d.ts`: extends `FrappeExtendedFunctions` and
bundles the module shapes (no `frappe` member in this variant). -/
def Frappe_client : InterfaceDecl where
  name := "Frappe"
  extendsList := ["FrappeExtendedFunctions"]
  members :=
    [ { name := "user", form := .property, type := .any },
      { name := "defaults", form := .property, type := .any },
      { name := "ui", form := .property, type := .ref ("ui") },
      { name := "db", form := .property, type := .ref ("db") },
      { name := "utils", form := .property, type := .ref ("utils") },
      { name := "model", form := .property, type := .ref ("model") },
      { name := "boot", form := .property, type := .ref ("boot") },
      { name := "dom", form := .property, type := .ref ("dom") },
      { name := "datetime", form := .property, type := .ref ("datetime") } ]

/-- `interface db` (`src/client/frappe/db.d.ts`): the database module
shape. -/
def db : InterfaceDecl where
  name := "db"
  members :=
    [ { name := "update", form := .method,
        type := .fn [("arg0", .str, false),
                     ("arg1", .obj [("name", .any, false),
                                    ("workflow_state", .any, false)], false)]
                    (.unknown) },
      { name := "insert", form := .property, tparams := ["T"],
        type := .fn [("doc",
                      .intersect [.obj [("doctype", .str, false)], recSA],
                      false)]
                    (.app ("Promise")
                      [.indexed (.app ("FrappeForm") [.tvar ("T")]) ("doc")]) },
      { name := "get_list", form := .property, tparams := ["T"],
        type := .fn [("doctype", .str, false),
                     ("options", .ref ("GetListOptions"), true)]
                    (.app ("Promise") [.arr (.tvar ("T"))]) },
      { name := "get_value", form := .property, tparams := ["T"],
        type := .fn [("doctype", .str, false),
                     ("nameOrFilters", .union [.str, recSA], false),
                     ("fieldname", .union [.str, .arr (.str)], true),
                     ("callback",
                      .fn [("value", .tvar ("T"), false)] (.void), true),
                     ("parent_doc", .str, true)]
                    (.app ("Promise")
                      [.obj [("message", .tvar ("T"), false)]]) },
      { name := "get_single_value", form := .property, tparams := ["T"],
        type := .fn [("doctype", .str, false), ("fieldname", .str, false)]
                    (.app ("Promise") [.tvar ("T")]) },
      { name := "set_value", form := .property, tparams := ["T"],
        type := .fn [("doctype", .str, false), ("docname", .str, false),
                     ("fieldname", .str, false), ("value", .tvar ("T"), false),
                     ("callback",
                      .fn [("result", .tvar ("T"), false)] (.void), false)]
                    (.app ("Promise") [.void]) },
      { name := "exists", form := .property,
        type := .fn [("doctype", .str, false),
                     ("nameOrFilters", .union [.str, recSA], false)]
                    (.app ("Promise") [.boolean]) },
      { name := "count", form := .property,
        type := .fn [("doctype", .str, false), ("filters", recSA, true)]
                    (.app ("Promise") [.num]) },
      { name := "delete_doc", form := .property,
        type := .fn [("doctype", .str, false), ("name", .str, false)]
                    (.app ("Promise") [.void]) },
      { name := "get_link_options", form := .property,
        type := .fn [("doctype", .str, false), ("txt", .str, true),
                     ("filters", recSA, true)]
                    (.app ("Promise") [.arr (.str)]) },
      { name := "get_doc", form := .property, tparams := ["T"],
        type := .fn [("doctype", .str, false), ("name", .str, false),
                     ("filters", recSA, true)]
                    (.app ("Promise")
                      [.indexed (.app ("FrappeForm") [.tvar ("T")]) ("doc")]) } ]

/-- `interface model` (`// frappe/model.d.ts`): the model-utilities
module shape.  Note that `get_std_field`, `clear_local_storage` and
`validate_missing` are each declared twice: first in method form, and
again later in property form. -/
def model : InterfaceDecl where
  name := "model"
  members :=
    [ { name := "no_value_type", form := .property, type := .arr (.str) },
      { name := "layout_fields", form := .property, type := .arr (.str) },
      { name := "std_fields_list", form := .property, type := .arr (.str) },
      { name := "child_table_field_list", form := .property, type := .arr (.str) },
      { name := "core_doctypes_list", form := .property, type := .arr (.str) },
      { name := "restricted_fields", form := .property, type := .arr (.str) },
      { name := "html_fieldtypes", form := .property, type := .arr (.str) },
      { name := "numeric_fieldtypes", form := .property, type := .arr (.str) },
      { name := "events", form := .property, type := recSA },
      { name := "user_settings", form := .property, type := recSA },
      { name := "is_value_type", form := .method,
        type := .fn [("fieldtype",
                      .union [.str, .obj [("fieldtype", .str, false)]], false)]
                    (.boolean) },
      { name := "on", form := .method,
        type := .fn [("doctype", .str, false), ("fieldname", .str, false),
                     ("fn", .fn [("params", .any, false)] (.void), false)]
                    (.void) },
      { name := "is_non_std_field", form := .method,
        type := .fn [("fieldname", .str, false)] (.boolean) },
      { name := "get_std_field", form := .method,
        type := .fn [("fieldname", .str, false), ("ignore", .boolean, true)]
                    (.any) },
      { name := "get_from_localstorage", form := .method,
        type := .fn [("doctype", .str, false)] (.any) },
      { name := "set_in_localstorage", form := .method,
        type := .fn [("doctype", .str, false), ("docs", .arr (.any), false)]
                    (.void) },
      { name := "clear_local_storage", form := .method,
        type := .fn [] (.void) },
      { name := "remove_from_locals", form := .method,
        type := .fn [("doctype", .str, false), ("name", .str, false)] (.void) },
      { name := "is_tree", form := .method,
        type := .fn [("doctype", .str, false)] (.boolean) },
      { name := "is_fresh", form := .method,
        type := .fn [("doc", recSA, false)] (.boolean) },
      { name := "validate_missing", form := .method,
        type := .fn [("doc", recSA, false), ("fieldname", .str, false)] (.void) },
      { name := "get_full_column_name", form := .method,
        type := .fn [("fieldname", .str, false), ("doctype", .str, false)] (.str) },
      { name := "is_numeric_field", form := .method,
        type := .fn [("fieldtype",
                      .union [.str, .obj [("fieldtype", .str, false)]], false)]
                    (.boolean) },
      { name := "trigger", form := .method,
        type := .fn [("fieldname", .str, false), ("value", .any, false),
                     ("doc", recSA, false),
                     ("skip_dirty_trigger", .boolean, true)] (.void) },
      { name := "get_no_copy_list", form := .method,
        type := .fn [("doctype", .str, false)] (.arr (.str)) },
      { name := "rename_doc", form := .method,
        type := .fn [("doctype", .str, false), ("docname", .str, false),
                     ("callback",
                      .fn [("newName", .str, false)] (.void), true)] (.void) },
      { name := "with_doctype", form := .property,
        type := .fn
          [ ("doctype", .str, false),
            ("callback",
             .fn [("response",
                   .obj [("message", .union [.strLit ("use_cache"), .any], true),
                         ("exc", .str, true),
                         ("docs", .arr (.any), true),
                         ("user_settings", recSA, true)], true)] (.void), true),
            ("async", .boolean, true) ]
          (.app ("Promise") [.any]) },
      { name := "with_doc", form := .property, tparams := ["T"],
        type := .fn
          [ ("doctype", .str, false), ("name", .str, false),
            ("callback",
             .fn [("name", .str, false),
                  ("response", .obj [("docs", .arr (.tvar ("T")), false)], false)]
                 (.void), true) ]
          (.app ("Promise") [.void]) },
      { name := "add_child", form := .property, tparams := ["T"],
        type := .fn [("parentDoc", recSA, false),
                     ("childTableField", .str, false),
                     ("values", .app ("Partial") [.tvar ("T")], true)]
                    (.tvar ("T")) },
      { name := "delete_child", form := .property,
        type := .fn [("parentDoc", recSA, false), ("childDoc", recSA, false)]
                    (.void) },
      { name := "set_value", form := .property,
        type := .fn [("doctypeOrDoc", .union [.str, recSA], false),
                     ("docnameOrFieldname", .union [.str, recSA], false),
                     ("fieldnameOrValue", .union [.str, .any], true),
                     ("value", .any, true),
                     ("fieldtype", .str, true),
                     ("skip_dirty_trigger", .boolean, true)] (.void) },
      { name := "copy_values", form := .property,
        type := .fn [("sourceDoc", recSA, false), ("targetDoc", recSA, false)]
                    (.void) },
      { name := "clear_table", form := .property,
        type := .fn [("doc", recSA, false)] (.void) },
      { name := "set_new", form := .property,
        type := .fn [("doc", recSA, false)] (.void) },
      { name := "delete_doc", form := .property,
        type := .fn [("doc", recSA, false)] (.void) },
      { name := "get_doc", form := .property, tparams := ["T"],
        type := .fn [("doctype", .str, false), ("name", .str, false)]
                    (.tvar ("T")) },
      { name := "create_new", form := .property, tparams := ["T"],
        type := .fn [("doctype", .str, false),
                     ("values", .app ("Partial") [.tvar ("T")], true)]
                    (.tvar ("T")) },
      { name := "refresh_field", form := .property,
        type := .fn [("doc", recSA, false), ("fieldname", .str, false)] (.void) },
      { name := "add_to_locals", form := .property,
        type := .fn [("doc", recSA, false)] (.void) },
      { name := "all_fieldtypes", form := .property, type := .arr (.str) },
      { name := "can_cancel", form := .property,
        type := .fn [("doctype", .str, false)] (.boolean) },
      { name := "can_create", form := .property,
        type := .fn [("doctype", .str, false)] (.boolean) },
      { name := "can_delete", form := .property,
        type := .fn [("doctype", .str, false)] (.boolean) },
      { name := "clear_doc", form := .property,
        type := .fn [("doctype", .str, false), ("name", .str, false)] (.void) },
      { name := "clear_local_storage", form := .property,
        type := .fn [] (.void) },
      { name := "create_mandatory_children", form := .property,
        type := .fn [("doc", recSA, false)] (.void) },
      { name := "get_all_docs", form := .property,
        type := .fn [("doctype", .str, false)] (.arr recSA) },
      { name := "get_children", form := .property, tparams := ["T"],
        type := .fn [("doctype", .union [.str, recSA], false),
                     ("parent", .str, false),
                     ("parentfield", .str, false),
                     ("filters", recSA, true)]
                    (.arr (.tvar ("T"))) },
      { name := "get_new_doc", form := .property,
        type := .fn [("doctype", .str, false), ("parent", .str, true),
                     ("parentField", .str, true), ("parentType", .str, true)]
                    (.ref ("FrappeDoc")) },
      { name := "get_new_name", form := .property,
        type := .fn [("doctype", .str, false)] (.str) },
      { name := "get_std_field", form := .property,
        type := .fn [("doctype", .str, false), ("fetchFromServer", .boolean, true)]
                    (.any) },
      { name := "has_value", form := .property,
        type := .fn [("doc", recSA, false), ("fieldname", .str, false),
                     ("value", .any, false)] (.boolean) },
      { name := "has_workflow", form := .property,
        type := .fn [("doctype", .str, false)] (.boolean) },
      { name := "validate_missing", form := .property,
        type := .fn [("doc", recSA, false), ("fieldname", .str, false)] (.void) },
      { name := "copy_doc", form := .property,
        type := .fn [("doc", recSA, false),
                     ("options",
                      .obj [("exclude", .arr (.str), true),
                            ("includeChildren", .boolean, true)], true)]
                    recSA },
      { name := "get_docinfo", form := .property,
        type := .fn [("doctype", .str, false), ("name", .str, false)] recSA },
      { name := "get_shared", form := .property,
        type := .fn [("doctype", .str, false), ("name", .str, false)]
                    (.arr (.ref ("UserShared"))) },
      { name := "get_server_module_name", form := .property,
        type := .fn [("doctype", .str, false)] (.str) },
      { name := "rename_after_save", form := .property,
        type := .fn [("doctype", .str, false), ("name", .str, false)] (.void) },
      { name := "sync", form := .property,
        type := .fn [("docs", .arr recSA, false)] (.void) },
      { name := "sync_docinfo", form := .property,
        type := .fn [("doctype", .str, false), ("docname", .str, false),
                     ("docinfo", recSA, false)] (.void) },
      { name := "update_in_locals", form := .property,
        type := .fn [("doc", recSA, false)] (.void) },
      { name := "set_default_values", form := .property,
        type := .fn [("doc", recSA, false), ("doctype", .str, false)] (.void) },
      { name := "get_default_value", form := .property,
        type := .fn [("doctype", .str, false), ("fieldname", .str, false),
                     ("doc", recSA, true)] (.any) },
      { name := "get_default_from_boot_docs", form := .property,
        type := .fn [("doctype", .str, false), ("fieldname", .str, false),
                     ("parent_doc", recSA, true)] (.any) },
      { name := "make_new_doc_and_get_name", form := .property,
        type := .fn [("doctype", .str, false), ("values", recSA, true)] (.str) },
      { name := "open_mapped_doc", form := .property,
        type := .fn [("options", recSA, false)] (.void) },
      { name := "round_floats_in", form := .property,
        type := .fn [("doc", recSA, false), ("fieldnames", .arr (.str), true)]
                    (.void) },
      { name := "scrub", form := .property,
        type := .fn [("text", .str, false)] (.str) },
      { name := "unscrub", form := .property,
        type := .fn [("text", .str, false)] (.str) } ]

set_option maxHeartbeats 1000000 in
/-- The object literal type of the `meta` member of `FrappeForm`
(`src/client/frappe/core.d.ts`): the cached Meta object for the current
DocType, transcribed field by field. -/
def FrappeForm_meta_type : TsType :=
  .obj
    [ ("name", .str, false),
      ("module", .str, false),
      ("doctype", .str, false),
      ("autoname", .str, true),
      ("naming_rule", .str, true),
      ("creation", .str, false),
      ("modified", .str, false),
      ("modified_by", .str, false),
      ("owner", .str, false),
      ("idx", .num, false),
      ("fields", .arr (.ref ("DialogField")), false),
      ("actions", .arr (.any), true),
      ("links", .arr (.any), true),
      ("states",
       .indexed (.app ("FrappeForm") [.tvar ("T")]) ("states"), true),
      ("beta", .boolean, false),
      ("custom", .boolean, false),
      ("issingle", .boolean, false),
      ("istable", .boolean, false),
      ("is_tree", .boolean, false),
      ("is_virtual", .boolean, false),
      ("is_submittable", .boolean, false),
      ("track_changes", .boolean, false),
      ("track_seen", .boolean, false),
      ("track_views", .boolean, false),
      ("queue_in_background", .boolean, false),
      ("allow_auto_repeat", .boolean, false),
      ("allow_import", .boolean, false),
      ("allow_rename", .boolean, false),
      ("allow_copy", .boolean, false),
      ("allow_events_in_timeline", .boolean, false),
      ("allow_guest_to_view", .boolean, false),
      ("allow_export", .boolean, false),
      ("editable_grid", .boolean, false),
      ("max_attachments", .num, false),
      ("make_attachments_public", .boolean, false),
      ("has_web_view", .boolean, false),
      ("show_name_in_global_search", .boolean, false),
      ("section_style", .str, true),
      ("sort_field", .str, true),
      ("sort_order", .str, true),
      ("hide_toolbar", .boolean, false),
      ("quick_entry", .boolean, false),
      ("read_only", .boolean, false),
      ("in_create", .boolean, false),
      ("email_append_to", .boolean, false),
      ("force_re_route_to_default_view", .boolean, false),
      ("index_web_pages_for_search", .boolean, false),
      ("translated_doctype", .boolean, false),
      ("is_calendar_and_gantt", .boolean, false),
      ("engine", .str, true),
      ("document_type", .str, true),
      ("show_preview_popup", .boolean, false),
      ("show_title_field_in_link", .boolean, false),
      ("__assets_loaded", .boolean, false),
      ("__custom_js", .str, true),
      ("__custom_list_js", .str, true),
      ("__dashboard", .any, true),
      ("__kanban_column_fields", .arr (.str), true),
      ("__linked_with", .any, true),
      ("__listview_template", .str, true),
      ("__map_js", .str, true),
      ("__tree_js", .str, true),
      ("__calendar_js", .str, true),
      ("__css", .str, true),
      ("__messages", .str, true),
      ("__templates", .str, true),
      ("__print_formats", .arr (.any), true),
      ("__last_sync_on", .ref ("Date"), true),
      ("__form_grid_templates", .any, true) ]

/-- `FrappeForm<T = Record<string, any>>`
(`src/client/frappe/core.d.ts`): the form instance shape. -/
def FrappeForm : InterfaceDecl where
  name := "FrappeForm"
  tparams := ["T"]
  members :=
    [ { name := "call", form := .method,
        type := .fn [("arg0", .str, false),
                     ("arg1",
                      .obj [("docname", .any, false),
                            ("workflow_state", .any, false),
                            ("ignore_workflow_validation", .boolean, false)],
                      false)]
                    (.unknown) },
      { name := "refresh", form := .method, type := .fn [] (.any) },
      { name := "doc", form := .property,
        type := .intersect [.ref ("FrappeDoc"), .tvar ("T")] },
      { name := "docstatus", form := .property, type := .num },
      { name := "dirty", form := .property, type := .fn [] (.void) },
      { name := "reload_doc", form := .property,
        type := .fn [] (.app ("Promise") [.void]) },
      { name := "set_query", form := .property,
        type := .fn [("fieldname", .str, false),
                     ("opt1",
                      .union [.str, .ref ("QueryFunction"),
                              .ref ("QueryOptions")], false),
                     ("opt2",
                      .union [.ref ("QueryFunction"), .ref ("QueryOptions")],
                      true)]
                    (.void) },
      { name := "add_child", form := .method, tparams := ["T"],
        type := .fn [("fieldname", .str, false), ("values", recSA, true)]
                    (.intersect [.tvar ("T"), recSA]) },
      { name := "refresh_field", form := .method,
        type := .fn [("fname", .str, false)] (.void) },
      { name := "docname", form := .property, type := .str },
      { name := "doctype", form := .property, type := .str },
      { name := "read_only", form := .property, type := .boolean },
      { name := "fields_dict", form := .property, type := .ref ("FieldsDict") },
      { name := "fields", form := .property, type := .arr (.any) },
      { name := "dashboard", form := .property,
        type := .obj [("parent", .ref ("HTMLElement"), false),
                      ("frm", .app ("FrappeForm") [.tvar ("T")], false),
                      ("progress_area", .ref ("HTMLElement"), false),
                      ("heatmap_area", .ref ("HTMLElement"), false),
                      ("chart_area", .ref ("HTMLElement"), false)] },
      { name := "sidebar", form := .property,
        type := .obj [("frm", .app ("FrappeForm") [.tvar ("T")], false),
                      ("page", .any, false),
                      ("sidebar", .ref ("HTMLElement"), false),
                      ("comments", .ref ("HTMLElement"), false),
                      ("user_actions", .ref ("HTMLElement"), false)] },
      { name := "toolbar", form := .property,
        type := .obj [("frm", .app ("FrappeForm") [.tvar ("T")], false),
                      ("page", .any, false),
                      ("print_icon", .ref ("HTMLElement"), false),
                      ("_has_workflow", .boolean, false),
                      ("current_status", .str, false)] },
      { name := "undo_manager", form := .property,
        type := .obj [("frm", .app ("FrappeForm") [.tvar ("T")], false),
                      ("undo_stack", .arr (.any), false),
                      ("redo_stack", .arr (.any), false)] },
      { name := "attachments", form := .property,
        type := .obj [("parent", .ref ("HTMLElement"), false),
                      ("frm", .app ("FrappeForm") [.tvar ("T")], false),
                      ("attachments_page_length", .num, false),
                      ("show_all_attachments", .boolean, false),
                      ("add_attachment_wrapper", .ref ("HTMLElement"), false)] },
      { name := "events", form := .property,
        type := .app ("Record")
                  [.str, .fn [("...args", .arr (.any), false)] (.void)] },
      { name := "setup_done", form := .property, type := .boolean },
      { name := "refresh_if_stale_for", form := .property, type := .num },
      { name := "state_fieldname", form := .property,
        type := .union [.str, .null] },
      { name := "states", form := .property,
        type := .obj [("frm", .ref ("FrappeForm_WorkflowAction_Extension"), false),
                      ("state_fieldname", .str, false),
                      ("update_fields", .arr (.str), false)] },
      { name := "set_value", form := .property,
        type := .fn [("fieldname", .union [.keyofT ("T"), .str, recSA], false),
                     ("value", .any, true)]
                    (.app ("Promise") [.void]) },
      { name := "add_custom_button", form := .property,
        type := .fn [("label", .str, false),
                     ("action", .fn [] (.void), false),
                     ("group", .str, true)]
                    (.void) },
      { name := "set_df_property", form := .property,
        type := .fn [("fieldname", .union [.keyofT ("T"), .str], false),
                     ("property", .str, false),
                     ("value", .any, false),
                     ("docname", .str, true),
                     ("table_field", .str, true),
                     ("table_row_name", .str, true)]
                    (.void) },
      { name := "save", form := .property,
        type := .fn [("ignore_permissions", .boolean, true),
                     ("ignore_version", .boolean, true)]
                    (.app ("Promise") [.void]) },
      { name := "savesubmit", form := .property,
        type := .fn [("btn", .ref ("HTMLElement"), true),
                     ("callback", .fn [] (.void), true),
                     ("on_error", .fn [] (.void), true)]
                    (.app ("Promise") [.thisType]) },
      { name := "action_perm_type_map", form := .property,
        type := .app ("Record") [.str, .str] },
      { name := "active_tab_map", form := .property, type := recSA },
      { name := "body", form := .property, type := .ref ("HTMLElement") },
      { name := "cscript", form := .property, type := recSA },
      { name := "footer", form := .property,
        type := .obj [("frm", .app ("FrappeForm") [.tvar ("T")], false),
                      ("parent", .ref ("HTMLElement"), false),
                      ("wrapper", .ref ("HTMLElement"), false)] },
      { name := "form_wrapper", form := .property, type := .ref ("HTMLElement") },
      { name := "opendocs", form := .property,
        type := .app ("Record") [.str, .boolean] },
      { name := "$wrapper", form := .property, type := .ref ("HTMLElement") },
      { name := "cur_grid", form := .property, type := .ref ("CurGrid"),
        optional := true },
      { name := "meta", form := .property, type := FrappeForm_meta_type } ]

/-- Whether a character list occurs contiguously inside another. -/
def charsContain (pat : List Char) : List Char → Bool
  | [] => pat.isEmpty
  | c :: t => List.isPrefixOf pat (c :: t) || charsContain pat t

/-- Whether a string contains another as a substring. -/
def strContains (s pat : String) : Bool :=
  charsContain pat.toList s.toList

/-! ### Claims -/

/-- C1: importing the declaration set declares exactly the fixed ambient
globals `frappe : Frappe`, `cur_frm : FrappeForm` and
`__(text: string, replacements?: Record<string, string | number>): string`
— the deduplicated union of the `declare global` blocks over all source
files is exactly that fixed list, and every file either declares no
globals or declares exactly that fixed list (three files do: the root
aggregator, the client entry, and the unnamed aggregator). -/
theorem C1_fixed_ambient_global_set :
    dedupByName (tsSourceFiles.flatMap SourceFile.globals) = fixedGlobals ∧
    (tsSourceFiles.map SourceFile.globals).filter (fun l => !l.isEmpty) =
      [fixedGlobals, fixedGlobals, fixedGlobals] :=
  ⟨rfl, rfl⟩

/-- C2, counterexample: the claim that no member name is declared twice
in the composed namespace fails.  Inside the constituent module
interface `model`, the name `get_std_field` is declared twice: first in
method form with parameters `(fieldname, ignore?)`, then in property
form with parameters `(doctype, fetchFromServer?)` — two declarations of
the same name with different declaration forms and parameter names. -/
theorem C2_model_get_std_field_declared_twice :
    model.memberNames.count ("get_std_field") = 2 ∧
    (model.members.filter (fun m => m.name == "get_std_field")).map
        (fun m => (m.form, m.paramNames)) =
      [(.method, ["fieldname", "ignore"]),
       (.property, ["doctype", "fetchFromServer"])] :=
  ⟨rfl, rfl⟩

/-- C2, amended: the aggregate `Frappe` interface is exactly the union
of its constituent module shapes — it extends `FrappeExtendedFunctions`
and its own members bundle each module interface by reference, with the
own member names disjoint from the inherited ones — but the composed
namespace does contain duplicate member declarations: exactly
`set_route` inside `FrappeExtendedFunctions` and `get_std_field`,
`clear_local_storage`, `validate_missing` inside `model` (each declared
once in method form and once in property form); no other member name of
`Frappe` (either variant), `FrappeExtendedFunctions`, `ui`, `db`,
`utils`, `model`, `boot`, `datetime` or `dom` is declared twice. -/
theorem C2_union_with_explicit_collisions :
    Frappe_client.extendsList = ["FrappeExtendedFunctions"] ∧
    Frappe_client.memberNames =
      ["user", "defaults", "ui", "db", "utils", "model", "boot", "dom",
       "datetime"] ∧
    Frappe_root.extendsList = ["FrappeExtendedFunctions"] ∧
    Frappe_root.memberNames =
      ["user", "defaults", "frappe", "ui", "db", "utils", "model", "boot",
       "dom", "datetime"] ∧
    (getMember Frappe_client ("ui")).map Member.type = some (.ref ("ui")) ∧
    (getMember Frappe_client ("db")).map Member.type = some (.ref ("db")) ∧
    (getMember Frappe_client ("utils")).map Member.type = some (.ref ("utils")) ∧
    (getMember Frappe_client ("model")).map Member.type = some (.ref ("model")) ∧
    (getMember Frappe_client ("boot")).map Member.type = some (.ref ("boot")) ∧
    (getMember Frappe_client ("dom")).map Member.type = some (.ref ("dom")) ∧
    (getMember Frappe_client ("datetime")).map Member.type =
      some (.ref ("datetime")) ∧
    Frappe_client.memberNames.all
      (fun n => !(FrappeExtendedFunctions.memberNames.contains n)) = true ∧
    FrappeExtendedFunctions.dupMemberNames = ["set_route"] ∧
    model.dupMemberNames =
      ["get_std_field", "clear_local_storage", "validate_missing"] ∧
    Frappe_client.dupMemberNames = [] ∧
    Frappe_root.dupMemberNames = [] ∧
    db.dupMemberNames = [] ∧
    dupOf ui_memberNames = [] ∧
    dupOf boot_memberNames = [] ∧
    dupOf utils_memberNames = [] ∧
    dupOf datetime_memberNames = [] ∧
    dupOf dom_memberNames = [] :=
  ⟨rfl, rfl, rfl, rfl, rfl, rfl, rfl, rfl, rfl, rfl, rfl, rfl, rfl, rfl,
   rfl, rfl, rfl, rfl, rfl, rfl, rfl, rfl⟩

/-- C3: re-importing the package does not change the declared globals —
deduplicating the globals of all files imported twice gives the same
list as importing them once, and the two named global-declaring files
together (root aggregator plus client entry) still yield exactly the
fixed list, as does each on its own. -/
theorem C3_reimport_idempotent :
    dedupByName (tsSourceFiles.flatMap SourceFile.globals ++
                 tsSourceFiles.flatMap SourceFile.globals) =
      dedupByName (tsSourceFiles.flatMap SourceFile.globals) ∧
    dedupByName (frappe_root_file.globals ++ client_index_file.globals) =
      fixedGlobals ∧
    dedupByName (frappe_root_file.globals) = fixedGlobals ∧
    dedupByName (client_index_file.globals) = fixedGlobals :=
  ⟨rfl, rfl, rfl, rfl⟩

/-- C4, counterexample: the root aggregator's first import names the
path `./frappe/frappe-db` (binding `db`), which resolves to
`src/frappe/frappe-db`; no source file of the repository can satisfy it
— every file either has a known path that is not that target (nor its
`index`), or does not export `db`.  The only module exporting `db` is
`src/client/frappe/db`. -/
theorem C4_root_aggregator_import_unresolvable :
    frappe_root_file.importList.head? = some (("./frappe/frappe-db"), ["db"]) ∧
    resolveRel ("src") ("./frappe/frappe-db") = ("src/frappe/frappe-db") ∧
    tsSourceFiles.all
      (fun m => !(m.mayProvideAt ("src/frappe/frappe-db") ("db"))) = true :=
  ⟨rfl, rfl, rfl⟩

/-- C4, amended: the client aggregator `src/client/frappe/index.d.ts`
and the client entry `src/client/index.d.ts` are pure compositions
whose import paths all resolve to modules of the repository, and the
client aggregator re-exports the single composite interface `Frappe`;
but every import path of the root aggregator `src/frappe.d.ts`
(`./frappe/frappe-db`, ..., `./frappe/frappe-dom`) resolves to a path at
which no file of the repository that exports the imported bindings can
sit — the leaf modules live under `src/client/frappe/` with names `db`,
`ui`, ..., not under `src/frappe/` with names `frappe-db`, .... -/
theorem C4_client_aggregator_resolves_root_does_not :
    client_frappe_index_file.importList.all
      (fun p => tsSourceFiles.any
        (fun m => m.resolvesTo (resolveRel ("src/client/frappe") p.1))) = true ∧
    client_index_file.importList.all
      (fun p => tsSourceFiles.any
        (fun m => m.resolvesTo (resolveRel ("src/client") p.1))) = true ∧
    client_frappe_index_file.exports = ["Frappe"] ∧
    frappe_root_file.importList.all
      (fun p => p.2.all (fun b => tsSourceFiles.all
        (fun m => !(m.mayProvideAt (resolveRel ("src") p.1) b)))) = true :=
  ⟨rfl, rfl, rfl, rfl⟩

/-- C5: in `FrappeDoc`, the identifier and classification attributes
`name` and `doctype` are declared non-optional of type `string`, while
the bookkeeping timestamps `creation` and `modified` are declared
optional of type `string`. -/
theorem C5_identifier_required_timestamps_optional :
    getMember FrappeDoc ("name") =
      some { name := "name", form := .property, type := .str,
             optional := false } ∧
    getMember FrappeDoc ("doctype") =
      some { name := "doctype", form := .property, type := .str,
             optional := false } ∧
    getMember FrappeDoc ("creation") =
      some { name := "creation", form := .property, type := .str,
             optional := true } ∧
    getMember FrappeDoc ("modified") =
      some { name := "modified", form := .property, type := .str,
             optional := true } :=
  ⟨rfl, rfl, rfl, rfl⟩

/-- C6: `FrappeForm` declares the operation members `set_value`
(set a field, parameters `fieldname`/`value`), `add_child` (add a child
record), `save` and `savesubmit` (submit), all of function type, and the
nested descriptive sub-shapes: `toolbar`, `sidebar` and `dashboard`
object states with their transcribed fields, the `undo_manager` with its
`undo_stack`/`redo_stack`, and the `meta` metadata object. -/
theorem C6_form_operations_and_substates :
    (getMember FrappeForm ("set_value")).map (fun m => m.type.isFn) =
      some true ∧
    (getMember FrappeForm ("set_value")).map Member.paramNames =
      some ["fieldname", "value"] ∧
    (getMember FrappeForm ("add_child")).map Member.form = some (.method) ∧
    (getMember FrappeForm ("add_child")).map Member.paramNames =
      some ["fieldname", "values"] ∧
    (getMember FrappeForm ("save")).map Member.type =
      some (.fn [("ignore_permissions", .boolean, true),
                 ("ignore_version", .boolean, true)]
                (.app ("Promise") [.void])) ∧
    (getMember FrappeForm ("savesubmit")).map Member.paramNames =
      some ["btn", "callback", "on_error"] ∧
    (getMember FrappeForm ("toolbar")).map (fun m => objFieldNames m.type) =
      some ["frm", "page", "print_icon", "_has_workflow", "current_status"] ∧
    (getMember FrappeForm ("sidebar")).map (fun m => objFieldNames m.type) =
      some ["frm", "page", "sidebar", "comments", "user_actions"] ∧
    (getMember FrappeForm ("dashboard")).map (fun m => objFieldNames m.type) =
      some ["parent", "frm", "progress_area", "heatmap_area", "chart_area"] ∧
    (getMember FrappeForm ("undo_manager")).map (fun m => objFieldNames m.type) =
      some ["frm", "undo_stack", "redo_stack"] ∧
    (getMember FrappeForm ("meta")).map Member.type =
      some FrappeForm_meta_type :=
  ⟨rfl, rfl, rfl, rfl, rfl, rfl, rfl, rfl, rfl, rfl, rfl⟩

/-- C7: `DocMeta` declares the field list `fields : DocField[]`, the
flags `is_submittable`, `issingle`, `istable` (booleans), and the naming
rule `autoname : string`, all non-optional. -/
theorem C7_docmeta_core_members :
    getMember DocMeta ("fields") =
      some { name := "fields", form := .property,
             type := .arr (.ref ("DocField")), optional := false } ∧
    getMember DocMeta ("is_submittable") =
      some { name := "is_submittable", form := .property, type := .boolean,
             optional := false } ∧
    getMember DocMeta ("issingle") =
      some { name := "issingle", form := .property, type := .boolean,
             optional := false } ∧
    getMember DocMeta ("istable") =
      some { name := "istable", form := .property, type := .boolean,
             optional := false } ∧
    getMember DocMeta ("autoname") =
      some { name := "autoname", form := .property, type := .str,
             optional := false } :=
  ⟨rfl, rfl, rfl, rfl, rfl⟩

/-- C8: every top-level declaration of every TypeScript source file of
the repository is a type-level or ambient declaration (an import, an
interface, a type alias, a `declare global` block of ambient consts and
functions, or the module marker `export \x7b \x7d`); no file contains a
runtime value creation or an executable statement. -/
theorem C8_all_declarations_type_level :
    tsSourceFiles.all (fun f => f.decls.all Decl.isTypeLevelOrAmbient) = true :=
  rfl

/-- C9: every business-document shape (each interface extending
`FrappeDoc`) requires the workflow attributes `workflow_state`,
`state_fieldname`, `__workflow_docs` and the bookkeeping attributes
`owner` and `docstatus` — all five declared non-optional in `FrappeDoc`
and therefore required of every conforming value — even though the doc
comment accompanying `owner` describes it as optional. -/
theorem C9_workflow_and_owner_required :
    businessDocInterfaces.all (fun i =>
      (i.extendsList.contains ("FrappeDoc")) &&
      (["workflow_state", "state_fieldname", "__workflow_docs", "owner",
        "docstatus"].all
        (fun n => (requiredMemberNames i).contains n))) = true ∧
    (getMember FrappeDoc ("workflow_state")).map Member.optional = some false ∧
    (getMember FrappeDoc ("state_fieldname")).map Member.optional = some false ∧
    (getMember FrappeDoc ("__workflow_docs")).map Member.optional = some false ∧
    (getMember FrappeDoc ("owner")).map Member.optional = some false ∧
    (getMember FrappeDoc ("docstatus")).map Member.optional = some false ∧
    strContains FrappeDoc_owner_comment ("Optional") = true :=
  ⟨rfl, rfl, rfl, rfl, rfl, rfl, rfl⟩

/-- C10: `db.get_value` is declared exactly once, as a generic property
of function type whose declared result is
`Promise<\x7b message: T \x7d>` (the message wrapper, never the bare
value), whose parameters are `doctype`, `nameOrFilters`
(string or filter record), `fieldname` (string or string array,
optional), then an optional `callback` function — not an `as_dict`
boolean flag — and an optional `parent_doc` string. -/
theorem C10_get_value_wraps_message :
    db.memberNames.count ("get_value") = 1 ∧
    getMember db ("get_value") =
      some { name := "get_value", form := .property, tparams := ["T"],
             type := .fn
               [("doctype", .str, false),
                ("nameOrFilters", .union [.str, recSA], false),
                ("fieldname", .union [.str, .arr (.str)], true),
                ("callback", .fn [("value", .tvar ("T"), false)] (.void), true),
                ("parent_doc", .str, true)]
               (.app ("Promise") [.obj [("message", .tvar ("T"), false)]]),
             optional := false } ∧
    (getMember db ("get_value")).map Member.paramNames =
      some ["doctype", "nameOrFilters", "fieldname", "callback", "parent_doc"] ∧
    (((getMember db ("get_value")).map Member.paramNames).getD []).contains
      ("as_dict") = false ∧
    ((getMember db ("get_value")).map (fun m =>
      match m.type with
      | .fn ps _ => ((ps.getD 3 (("", .any, false))).2.1).isFn
      | _ => false)) = some true :=
  ⟨rfl, rfl, rfl, rfl, rfl⟩

end FrappeTypes
